import Mathlib

/-!
# Otter Browser widgets: `SplitterWidget` and `SearchWidget`

A shallow embedding of `src/ui/SplitterWidget.cpp` and of
`src/modules/widgets/search/SearchWidget.cpp`.

Widgets are records of the members the C++ code reads and writes; every member
function becomes a pure function from the widget record (and the part of the
application it consults, collected in an environment record) to the new widget
record.  Values of the GUI toolkit are modelled by what the code observes of
them:

* a `QString` is its sequence of UTF-16 code units;
* a `QVariant` is given by the results of the conversions the code applies;
* a `QRect` stores its two corner points, as the toolkit does.
-/

set_option autoImplicit false

namespace Otter

/-! ## Toolkit values -/

/-- A string of the toolkit: the list of its UTF-16 code units.  A code unit is a
number below 65536; nothing below depends on that bound. -/
abbrev QString := List Nat

/-- A Latin-1 literal: every character is the code unit of the same value. -/
def QLatin1String (s : String) : QString :=
  s.toList.map Char.toNat

namespace QString

/-- Scan of `QString::remove(const QString &)`: the toolkit repeats
`i = indexOf(needle, i)` and `remove(i, needle.size())`, so an occurrence that
starts at the current position is dropped and the scan resumes right behind it.
The first argument counts the code units of a found occurrence that are still
to be dropped. -/
def removeScan (needle : QString) : Nat → QString → QString
  | _, [] => []
  | k + 1, _ :: cs => removeScan needle k cs
  | 0, c :: cs =>
    if needle.isPrefixOf (c :: cs) then removeScan needle (needle.length - 1) cs
    else c :: removeScan needle 0 cs

/-- The function `QString::remove(const QString &)`: removes every occurrence of `needle`
found by a left-to-right scan; an empty `needle` removes nothing. -/
def removeStr (s needle : QString) : QString :=
  if needle.isEmpty then s else removeScan needle 0 s

/-- The function `QString::remove(int position, int n)`:
a negative position counts from the end, a position outside the string removes
nothing, and a range that reaches the end truncates the string. -/
def removeAt (s : QString) (position n : Int) : QString :=
  let pos : Int := if position < 0 then position + s.length else position
  if pos < 0 ∨ (s.length : Int) ≤ pos then s
  else if (s.length : Int) - pos ≤ n then s.take pos.toNat
  else if 0 < n then s.take pos.toNat ++ s.drop (pos + n).toNat
  else s

/-- The function `QString::endsWith`. -/
def endsWith (s suffix : QString) : Bool :=
  suffix.isSuffixOf s

end QString

/-! ## `SplitterWidget` -/

/-- A main window, known by its identity. -/
abbrev MainWindowId := Nat

/-- What `SplitterWidget::showEvent` consults outside the widget. -/
structure SplitterEnv where
  /-- Result of `MainWindow::findMainWindow(this)`; `none` is the null pointer. -/
  findMainWindow : Option MainWindowId
  /-- Result of `MainWindow::getSplitterSizes(name)` for a main window. -/
  getSplitterSizes : MainWindowId → QString → List Int

/-- The members of a `SplitterWidget` together with the properties of its base
classes that `showEvent` touches. -/
structure SplitterWidget where
  /-- The `objectName()` of the widget. -/
  objectName : QString
  /-- The list most recently handed to `QSplitter::setSizes`. -/
  sizes : List Int
  m_mainWindow : Option MainWindowId
  m_isInitialized : Bool

namespace SplitterWidget

/-- The function `SplitterWidget::normalizeSplitterName`. -/
def normalizeSplitterName (name : QString) : QString :=
  let name := name.removeStr (QLatin1String "Otter__")
  if name.endsWith (QLatin1String "SplitterWidget") then
    name.removeAt ((name.length : Int) - 14) 14
  else
    name

/-- The function `SplitterWidget::showEvent`; the base class handler `QSplitter::showEvent`
touches none of the members recorded here. -/
def showEvent (env : SplitterEnv) (w : SplitterWidget) : SplitterWidget :=
  if !w.m_isInitialized then
    let name := normalizeSplitterName w.objectName
    if name.isEmpty then
      w
    else
      let w := if w.m_mainWindow.isNone then { w with m_mainWindow := env.findMainWindow } else w
      let w :=
        match w.m_mainWindow with
        | some mainWindow =>
          let sizes := env.getSplitterSizes mainWindow name
          if !sizes.isEmpty then { w with sizes := sizes } else w
        | none => w
      { w with m_isInitialized := true }
  else
    w

/-- A run of show events, each delivered in its own environment. -/
def showEvents (envs : List SplitterEnv) (w : SplitterWidget) : SplitterWidget :=
  envs.foldl (fun acc env => showEvent env acc) w

end SplitterWidget

/-! ## More toolkit values -/

/-- An address; the code copies addresses and asks whether they are valid. -/
abbrev QUrl := QString

/-- A `QVariant`, given by the results of the conversions the code applies. -/
structure QVariant where
  toString : QString
  toBool : Bool
  toUrl : QUrl

namespace QVariant

/-- The default-constructed (invalid) variant `QVariant()`. -/
def invalid : QVariant := ⟨[], false, []⟩

/-- Lower-casing of the code units `A`..`Z`. -/
def asciiLower (s : QString) : QString :=
  s.map fun c => if 65 ≤ c ∧ c ≤ 90 then c + 32 else c

/-- A variant holding a string: it converts to `false` exactly when the string
is empty, `"0"` or, lower-cased, `"false"`. -/
def ofString (s : QString) : QVariant :=
  ⟨s, !(s.isEmpty || s == QLatin1String "0" || asciiLower s == QLatin1String "false"), s⟩

/-- A variant holding a boolean. -/
def ofBool (b : Bool) : QVariant :=
  ⟨if b then QLatin1String "true" else QLatin1String "false", b, []⟩

end QVariant

/-- A `QVariantMap`: keys with their values. -/
abbrev QVariantMap := List (QString × QVariant)

namespace QVariantMap

/-- The function `QMap::value(key, defaultValue)`. -/
def value (m : QVariantMap) (key : QString) (defaultValue : QVariant) : QVariant :=
  (m.lookup key).getD defaultValue

end QVariantMap

/-- The function `QList::indexOf`: the position of the first occurrence, `-1` if there is none. -/
def indexOf (l : List QString) (x : QString) : Int :=
  if x ∈ l then (l.indexOf x : Int) else -1

/-- A `QMargins`. -/
structure QMargins where
  left : Int
  top : Int
  right : Int
  bottom : Int
  deriving DecidableEq, Repr

/-- A `QRect`: the coordinates of the top-left and of the bottom-right point. -/
structure QRect where
  x1 : Int
  y1 : Int
  x2 : Int
  y2 : Int
  deriving DecidableEq, Repr

namespace QRect

/-- The default-constructed rectangle `QRect()`. -/
def null : QRect := ⟨0, 0, -1, -1⟩

/-- The constructor `QRect(x, y, width, height)`. -/
def ofSize (x y width height : Int) : QRect :=
  ⟨x, y, x + width - 1, y + height - 1⟩

/-- The function `QRect::width`. -/
def width (r : QRect) : Int := r.x2 - r.x1 + 1

/-- The function `QRect::height`. -/
def height (r : QRect) : Int := r.y2 - r.y1 + 1

/-- The function `QRect::marginsRemoved`. -/
def marginsRemoved (r : QRect) (m : QMargins) : QRect :=
  ⟨r.x1 + m.left, r.y1 + m.top, r.x2 - m.right, r.y2 - m.bottom⟩

/-- The function `QRect::contains(const QPoint &)` for the point `(px, py)`: a rectangle of
negative extent is read with its sides swapped, as the toolkit does. -/
def contains (r : QRect) (px py : Int) : Bool :=
  let l := if r.x2 < r.x1 - 1 then r.x2 else r.x1
  let rr := if r.x2 < r.x1 - 1 then r.x1 else r.x2
  let t := if r.y2 < r.y1 - 1 then r.y2 else r.y1
  let b := if r.y2 < r.y1 - 1 then r.y1 else r.y2
  !(decide (px < l) || decide (rr < px)) && !(decide (py < t) || decide (b < py))

/-- Two rectangles share a point. -/
def SharesPoint (r s : QRect) : Prop :=
  ∃ px py : Int, r.contains px py = true ∧ s.contains px py = true

end QRect

/-! ## `SearchWidget`: the application around the widget -/

/-- A browser window, known by its identity. -/
abbrev WindowId := Nat

/-- The option identifiers of `SettingsManager` that the widget dispatches on;
`other` stands for every remaining identifier. -/
inductive OptionIdentifier where
  | AddressField_DropActionOption
  | AddressField_SelectAllOnFocusOption
  | Search_SearchEnginesSuggestionsOption
  | Search_DefaultSearchEngineOption
  | other (identifier : Nat)
  deriving DecidableEq, Repr

/-- The type `LineEditWidget::DropMode`. -/
inductive DropMode where
  | PasteDropMode
  | ReplaceDropMode
  | ReplaceAndNotifyDropMode
  deriving DecidableEq, Repr

/-- The type `WebWidget::LinkUrl`: a search engine offered by the page. -/
structure LinkUrl where
  title : QString
  url : QUrl

/-- A `QModelIndex`, given by what the code reads through it: its row, the data
of the roles that are queried, and the text of the item it refers to.  The
invalid index has row `-1` and empty data. -/
structure QModelIndex where
  row : Int
  /-- The string of `data(Qt::AccessibleDescriptionRole)`. -/
  accessibleDescription : QString
  /-- The string of `data(SearchEnginesManager::IdentifierRole)`. -/
  identifier : QString
  /-- The string of `data(SearchEnginesManager::TitleRole)`. -/
  title : QString
  /-- The text of the item at the index. -/
  text : QString

namespace QModelIndex

/-- The default-constructed (invalid) index. -/
def invalid : QModelIndex := ⟨-1, [], [], [], []⟩

end QModelIndex

/-- A row of the search engines model. -/
structure ModelRow where
  accessibleDescription : QString
  identifier : QString
  title : QString
  text : QString

/-- The model that the popup of the line edit shows. -/
inductive PopupModel where
  | noModel
  | searchEnginesModel
  | suggesterModel (suggester : Nat)
  deriving DecidableEq, Repr

/-- The popup of `LineEditWidget`. -/
structure Popup where
  visible : Bool
  model : PopupModel
  deriving DecidableEq, Repr

/-- A `SearchSuggester`, known by its identity, with the search engine and the
query it was last given. -/
structure SearchSuggester where
  ident : Nat
  searchEngine : QString
  query : QString
  deriving DecidableEq, Repr

/-- A `SearchEngineFetchJob` created by the widget. -/
structure SearchEngineFetchJob where
  url : QUrl
  identifier : QString
  saveSearchEngine : Bool
  /-- Number of connections of `jobFinished` to the handler installed by
  `SearchWidget::addSearchEngine`. -/
  failureHandlers : Nat
  deriving DecidableEq, Repr

/-- A `QAction`, given by its `data()`. -/
structure QAction where
  data : QVariant

/-- What the widget does to the application around it, in the order it happens. -/
inductive Effect where
  /-- The statement `emit requestedSearch(query, searchEngine, hints)`. -/
  | requestedSearch (query searchEngine : QString) (hints : Nat)
  /-- The statement `mainWindow->triggerAction(ActionsManager::OpenUrlAction, {url, hints})`. -/
  | triggerOpenUrl (mainWindow : MainWindowId) (url : QUrl) (hints : Nat)
  /-- The statement `window->setOption(SettingsManager::Search_DefaultSearchEngineOption, value)`. -/
  | windowSetOption (window : WindowId) (value : QString)
  /-- The statement `PreferencesDialog(QLatin1String("search"), this).exec()`. -/
  | preferencesDialog
  /-- The statement `QMessageBox::warning(this, title, text, QMessageBox::Close)`. -/
  | warning (title text : QString)
  deriving DecidableEq, Repr

/-- What `SearchWidget` consults outside itself.  The classes behind these
fields (`SearchEnginesManager`, `SettingsManager`, `Window`, `MainWindow`,
`LineEditWidget`, the translator) are not part of the embedded files, so their
answers are parameters. -/
structure SearchEnv where
  /-- Result of `SearchEnginesManager::getSearchEngines()`. -/
  searchEngines : List QString
  /-- The rows of `SearchEnginesManager::getSearchEnginesModel()`. -/
  modelRows : List ModelRow
  /-- Result of `SearchEnginesManager::hasSearchEngine(url)`. -/
  hasSearchEngine : QUrl → Bool
  /-- Result of `SearchEnginesManager::getSearchEngine(identifier).formUrl`. -/
  formUrl : QString → QUrl
  /-- Result of `QUrl::isValid`. -/
  isValid : QUrl → Bool
  /-- Result of `SettingsManager::getOption(SettingsManager::Search_DefaultSearchEngineOption)`. -/
  defaultSearchEngineOption : QVariant
  /-- Result of `window->getOption(SettingsManager::Search_DefaultSearchEngineOption)`. -/
  windowOption : WindowId → QVariant
  /-- Result of `window->getWebWidget()->getSearchEngines()`, `none` when the window has no
  web widget. -/
  windowSearchEngines : WindowId → Option (List LinkUrl)
  /-- Result of `MainWindow::findMainWindow(this)`. -/
  findMainWindow : Option MainWindowId
  /-- Result of `MainWindow::findMainWindow(window)`. -/
  findMainWindowOfWindow : WindowId → Option MainWindowId
  /-- Result of `SessionsManager::calculateOpenHints()`. -/
  calculateOpenHints : Nat
  /-- Result of `LineEditWidget::hidePopup()`, as a change of the popup. -/
  hidePopup : Popup → Popup
  /-- Result of `tr("Search using %1").arg(title)`. -/
  searchUsing : QString → QString
  /-- Translation `tr(text)` of a source text. -/
  tr : QString → QString

/-- The members of a `SearchWidget` together with the properties of its base
classes that the embedded functions read or write. -/
structure SearchWidget where
  m_window : Option WindowId
  m_suggester : Option SearchSuggester
  m_searchEngine : QString
  m_query : QString
  m_options : QVariantMap
  m_iconRectangle : QRect
  m_dropdownArrowRectangle : QRect
  m_addButtonRectangle : QRect
  m_searchButtonRectangle : QRect
  m_isSearchEngineLocked : Bool
  /-- The value of `text()`. -/
  text : QString
  /-- The value of `toolTip()`. -/
  toolTip : QString
  /-- The value of `placeholderText()`. -/
  placeholderText : QString
  /-- The value of `isEnabled()`. -/
  enabled : Bool
  /-- The value of `width()`. -/
  width : Int
  /-- The value of `height()`. -/
  height : Int
  /-- The value of `layoutDirection() == Qt::RightToLeft`. -/
  isRightToLeft : Bool
  /-- The value of `textMargins()`. -/
  textMargins : QMargins
  /-- The drop mode of `LineEditWidget`. -/
  dropMode : DropMode
  /-- The select-all-on-focus flag of `LineEditWidget`. -/
  selectAllOnFocus : Bool
  /-- The popup returned by `getPopup()`. -/
  popup : Popup
  /-- Number of connections of `textChanged` to `setQuery`. -/
  setQueryConnections : Nat
  /-- Identity given to the next suggester that is created. -/
  nextSuggester : Nat
  /-- The fetch jobs created so far. -/
  jobs : List SearchEngineFetchJob
  /-- The effects on the application so far, oldest first. -/
  effects : List Effect

/-! ## `SearchWidget`: member functions -/

namespace SearchWidget

/-- Appends an effect to the record of effects. -/
def perform (w : SearchWidget) (e : Effect) : SearchWidget :=
  { w with effects := w.effects ++ [e] }

/-- The call `hidePopup()` of the base class. -/
def hidePopup (env : SearchEnv) (w : SearchWidget) : SearchWidget :=
  { w with popup := env.hidePopup w.popup }

/-- The call `model->index(row, 0)` on the search engines model: the invalid
index when the row does not exist. -/
def index (env : SearchEnv) (row : Int) : QModelIndex :=
  if row < 0 then QModelIndex.invalid
  else
    match env.modelRows.get? row.toNat with
    | some r => ⟨row, r.accessibleDescription, r.identifier, r.title, r.text⟩
    | none => QModelIndex.invalid

/-- The function `SearchWidget::getCurrentIndex`. -/
def getCurrentIndex (env : SearchEnv) (w : SearchWidget) : QModelIndex :=
  let searchEngine : QString :=
    if w.m_searchEngine.isEmpty then
      (match w.m_window with
        | some window => env.windowOption window
        | none => env.defaultSearchEngineOption).toString
    else
      w.m_searchEngine
  index env (max 0 (indexOf env.searchEngines searchEngine))

/-- The slot `SearchWidget::setQuery`. -/
def setQuery (env : SearchEnv) (w : SearchWidget) (query : QString) : SearchWidget :=
  let w := { w with m_query := query }
  if w.popup.model = PopupModel.searchEnginesModel ∨ w.m_query.isEmpty then
    hidePopup env w
  else
    w

/-- Delivery of the signal `textChanged(text)` to the connected `setQuery`
slots, once per connection. -/
def emitTextChanged (env : SearchEnv) (text : QString) : Nat → SearchWidget → SearchWidget
  | 0, w => w
  | n + 1, w => emitTextChanged env text n (setQuery env w text)

/-- The call `setText(text)` of `QLineEdit`: the text is replaced and, when it
differs from the old one, `textChanged` is emitted. -/
def setText (env : SearchEnv) (w : SearchWidget) (text : QString) : SearchWidget :=
  if w.text = text then
    w
  else
    let w := { w with text := text }
    emitTextChanged env text w.setQueryConnections w

/-- The function `SearchWidget::sendRequest`. -/
def sendRequest (env : SearchEnv) (w : SearchWidget) (query : QString) : SearchWidget :=
  let w := if !query.isEmpty then { w with m_query := query } else w
  if w.m_query.isEmpty then
    let formUrl := env.formUrl w.m_searchEngine
    if env.isValid formUrl then
      let mainWindow :=
        match w.m_window with
        | some window => env.findMainWindowOfWindow window
        | none => env.findMainWindow
      match mainWindow with
      | some mainWindow =>
        w.perform (Effect.triggerOpenUrl mainWindow formUrl env.calculateOpenHints)
      | none => w
    else
      w
  else
    w.perform (Effect.requestedSearch w.m_query w.m_searchEngine env.calculateOpenHints)

/-- The test `m_suggester && getPopup()->model() == m_suggester->getModel()`. -/
def popupShowsSuggester (w : SearchWidget) : Bool :=
  match w.m_suggester with
  | some suggester => decide (w.popup.model = PopupModel.suggesterModel suggester.ident)
  | none => false

/-- The function `SearchWidget::setSearchEngine(const QModelIndex &, bool)`.
The call of `Window::setOption` is recorded as an effect; the items that the
code looks up through the index are taken to exist. -/
def setSearchEngineIndex (env : SearchEnv) (w : SearchWidget) (index : QModelIndex)
    (canSendRequest : Bool) : SearchWidget :=
  if popupShowsSuggester w then
    let w := setText env w index.text
    let w := sendRequest env w []
    hidePopup env w
  else
    let w :=
      if index.accessibleDescription.isEmpty then
        let w := { w with m_searchEngine := index.identifier }
        let w :=
          match w.m_window with
          | some window =>
            if !w.m_isSearchEngineLocked then
              w.perform (Effect.windowSetOption window w.m_searchEngine)
            else w
          | none => w
        let title := index.title
        let w := { w with toolTip := env.searchUsing title }
        let w := { w with placeholderText := env.searchUsing title }
        let w := setText env w w.m_query
        let w :=
          match w.m_suggester with
          | some suggester =>
            let suggester := { suggester with searchEngine := w.m_searchEngine }
            let suggester := { suggester with query := [] }
            { w with m_suggester := some suggester }
          | none => w
        if canSendRequest && !w.m_query.isEmpty then sendRequest env w [] else w
      else
        let query := w.m_query
        if query ≠ index.text then setText env w query else w
    let w := { w with enabled := true }
    let w := hidePopup env w
    if index.accessibleDescription = QLatin1String "configure" then
      w.perform Effect.preferencesDialog
    else
      w

/-- The function `SearchWidget::setSearchEngine(const QString &)`. -/
def setSearchEngine (env : SearchEnv) (w : SearchWidget) (searchEngine : QString) :
    SearchWidget :=
  if w.m_isSearchEngineLocked ∧
      searchEngine ≠ (w.m_options.value (QLatin1String "searchEngine") QVariant.invalid).toString then
    w
  else
    let searchEngines := env.searchEngines
    if searchEngines.isEmpty then
      let w := { w with m_searchEngine := [] }
      let w := hidePopup env w
      let w := { w with enabled := false }
      let w := { w with toolTip := [] }
      { w with placeholderText := [] }
    else
      let w := { w with m_searchEngine := if searchEngines.contains searchEngine then searchEngine else [] }
      let w := setSearchEngineIndex env w (getCurrentIndex env w) false
      match w.m_suggester with
      | some suggester =>
        let suggester := { suggester with searchEngine := w.m_searchEngine }
        { w with m_suggester := some suggester }
      | none => w

/-- The search engines of the page of the attached window, as computed at the
start of `updateGeometries`. -/
def pageSearchEngines (env : SearchEnv) (w : SearchWidget) : List LinkUrl :=
  match w.m_window with
  | some window => (env.windowSearchEngines window).getD []
  | none => []

/-- The loop of `updateGeometries` that computes `hasAllSearchEngines`. -/
def hasAllSearchEngines (env : SearchEnv) : List LinkUrl → Bool
  | [] => true
  | e :: es => if !env.hasSearchEngine e.url then false else hasAllSearchEngines env es

/-- The first part of `SearchWidget::updateGeometries`, up to the search button:
the rectangles of the icon, of the drop-down arrow and of the search button are
assigned, and the text margins they leave are returned with the widget. -/
def updateControlGeometries (w : SearchWidget) : SearchWidget × QMargins :=
  let margins : QMargins := ⟨max (Int.tdiv (w.height - 16) 2) 2, 0, 2, 0⟩
  let isRightToLeft := w.isRightToLeft
  let w := { w with m_searchButtonRectangle := QRect.null }
  let w := { w with m_addButtonRectangle := QRect.null }
  let w := { w with m_dropdownArrowRectangle := QRect.null }
  let (w, margins) :=
    if isRightToLeft then
      ({ w with m_iconRectangle :=
          QRect.ofSize (w.width - margins.right - 20) (Int.tdiv (w.height - 16) 2) 16 16 },
        { margins with right := margins.right + 20 })
    else
      ({ w with m_iconRectangle :=
          QRect.ofSize margins.left (Int.tdiv (w.height - 16) 2) 16 16 },
        { margins with left := margins.left + 20 })
  let (w, margins) :=
    if !w.m_isSearchEngineLocked then
      if isRightToLeft then
        ({ w with m_dropdownArrowRectangle :=
            QRect.ofSize (w.width - margins.right - 14) 0 14 w.height },
          { margins with right := margins.right + 12 })
      else
        ({ w with m_dropdownArrowRectangle := QRect.ofSize margins.left 0 14 w.height },
          { margins with left := margins.left + 12 })
    else
      (w, margins)
  if (w.m_options.value (QLatin1String "showSearchButton") (QVariant.ofBool true)).toBool then
    if isRightToLeft then
      ({ w with m_searchButtonRectangle :=
          QRect.ofSize margins.left (Int.tdiv (w.height - 16) 2) 16 16 },
        { margins with left := margins.left + 20 })
    else
      ({ w with m_searchButtonRectangle :=
          QRect.ofSize (w.width - margins.right - 20) (Int.tdiv (w.height - 16) 2) 16 16 },
        { margins with right := margins.right + 20 })
  else
    (w, margins)

/-- The function `SearchWidget::updateGeometries`: after the part above, the
add button is placed when a window is attached, its page offers a search engine
that is not known yet, and more than 50 units are left for the text. -/
def updateGeometries (env : SearchEnv) (w : SearchWidget) : SearchWidget :=
  let rect := QRect.ofSize 0 0 w.width w.height
  let searchEngines := pageSearchEngines env w
  let isRightToLeft := w.isRightToLeft
  let (w, margins) := updateControlGeometries w
  let (w, margins) :=
    if w.m_window.isSome ∧ !searchEngines.isEmpty then
      if !hasAllSearchEngines env searchEngines ∧ (rect.marginsRemoved margins).width > 50 then
        if isRightToLeft then
          ({ w with m_addButtonRectangle :=
              QRect.ofSize margins.left (Int.tdiv (w.height - 16) 2) 16 16 },
            { margins with left := margins.left + 20 })
        else
          ({ w with m_addButtonRectangle :=
              QRect.ofSize (w.width - margins.right - 20) (Int.tdiv (w.height - 16) 2) 16 16 },
            { margins with right := margins.right + 20 })
      else
        (w, margins)
    else
      (w, margins)
  { w with textMargins := margins }

/-- The function `SearchWidget::handleOptionChanged`. -/
def handleOptionChanged (w : SearchWidget) (identifier : OptionIdentifier) (value : QVariant) :
    SearchWidget :=
  match identifier with
  | OptionIdentifier.AddressField_DropActionOption =>
    let dropAction := value.toString
    if dropAction = QLatin1String "pasteAndGo" then
      { w with dropMode := DropMode.ReplaceAndNotifyDropMode }
    else if dropAction = QLatin1String "replace" then
      { w with dropMode := DropMode.ReplaceDropMode }
    else
      { w with dropMode := DropMode.PasteDropMode }
  | OptionIdentifier.AddressField_SelectAllOnFocusOption =>
    { w with selectAllOnFocus := value.toBool }
  | OptionIdentifier.Search_SearchEnginesSuggestionsOption =>
    if value.toBool ∧ w.m_suggester.isNone then
      let suggester : SearchSuggester := ⟨w.nextSuggester, w.m_searchEngine, []⟩
      { w with m_suggester := some suggester, nextSuggester := w.nextSuggester + 1 }
    else if !value.toBool ∧ w.m_suggester.isSome then
      { w with m_suggester := none }
    else
      w
  | _ => w

/-- The function `SearchWidget::handleWindowOptionChanged`. -/
def handleWindowOptionChanged (env : SearchEnv) (w : SearchWidget)
    (identifier : OptionIdentifier) (value : QVariant) : SearchWidget :=
  if identifier = OptionIdentifier.Search_DefaultSearchEngineOption then
    setSearchEngine env w value.toString
  else
    w

/-- The function `SearchWidget::storeCurrentSearchEngine`. -/
def storeCurrentSearchEngine (env : SearchEnv) (w : SearchWidget) : SearchWidget :=
  let w := hidePopup env w
  { w with setQueryConnections := 0 }

/-- The function `SearchWidget::restoreCurrentSearchEngine`. -/
def restoreCurrentSearchEngine (env : SearchEnv) (w : SearchWidget) : SearchWidget :=
  let w :=
    if !w.m_searchEngine.isEmpty then
      let w := setSearchEngine env w w.m_searchEngine
      { w with m_searchEngine := [] }
    else
      w
  let w := updateGeometries env w
  let w := setText env w w.m_query
  { w with setQueryConnections := w.setQueryConnections + 1 }

/-- The handler that `addSearchEngine` connects to `jobFinished`. -/
def addSearchEngineFinished (env : SearchEnv) (w : SearchWidget) (isSuccess : Bool) :
    SearchWidget :=
  if !isSuccess then
    w.perform (Effect.warning (env.tr (QLatin1String "Error"))
      (env.tr (QLatin1String "Failed to add search engine.")))
  else
    w

/-- Delivery of the signal `jobFinished(isSuccess)` of a fetch job to the
handlers connected to it, once per connection. -/
def jobFinished (env : SearchEnv) (isSuccess : Bool) : Nat → SearchWidget → SearchWidget
  | 0, w => w
  | n + 1, w => jobFinished env isSuccess n (addSearchEngineFinished env w isSuccess)

/-- The function `SearchWidget::addSearchEngine`; `none` is the null action.
Constructing the job starts the fetch. -/
def addSearchEngine (w : SearchWidget) (action : Option QAction) : SearchWidget :=
  match action with
  | some action =>
    let job : SearchEngineFetchJob := ⟨action.data.toUrl, [], true, 0⟩
    let job := { job with failureHandlers := job.failureHandlers + 1 }
    { w with jobs := w.jobs ++ [job] }
  | none => w

end SearchWidget

/-! ## The wrap-around row of the wheel, in the words of its description -/

/-- The relation `OccurrencesRemoved needle name result` follows the words of the
description, not the code: `result` is `name` with the occurrences of `needle`
removed.  The name consists of pieces that do not contain `needle`, separated by
`needle`, and the result is those pieces put together. -/
inductive OccurrencesRemoved (needle : QString) : QString → QString → Prop where
  | last (piece : QString) (free : ¬ needle <:+: piece) :
      OccurrencesRemoved needle piece piece
  | separated (piece rest result : QString) (free : ¬ needle <:+: piece)
      (tail : OccurrencesRemoved needle rest result) :
      OccurrencesRemoved needle (piece ++ needle ++ rest) (piece ++ result)

/-- No proper end of `needle` is also a beginning of it, so two occurrences of
`needle` in a string never overlap. -/
def Unbordered (needle : QString) : Prop :=
  ∀ d : Nat, 0 < d → d < needle.length → ¬ needle.drop d <+: needle

/-! ## Concrete inputs -/

/-- A main window that has saved the sizes `[240, 720]` for the splitter `Main`. -/
def sampleSplitterEnv : SplitterEnv where
  findMainWindow := some 1
  getSplitterSizes := fun _ name => if name = QLatin1String "Main" then [240, 720] else []

/-- A fresh splitter with the object name `Otter__MainSplitterWidget`. -/
def sampleSplitter : SplitterWidget where
  objectName := QLatin1String "Otter__MainSplitterWidget"
  sizes := []
  m_mainWindow := none
  m_isInitialized := false

/-- A fresh splitter whose object name normalises to the empty string. -/
def unnamedSplitter : SplitterWidget where
  objectName := QLatin1String "Otter__SplitterWidget"
  sizes := [100, 100]
  m_mainWindow := none
  m_isInitialized := false

/-- An application with the search engines `google` and `bing`; the model lists
them followed by the separator and the configure entry.  The page of every
window offers one search engine that is not known. -/
def sampleEnv : SearchEnv where
  searchEngines := [QLatin1String "google", QLatin1String "bing"]
  modelRows :=
    [⟨[], QLatin1String "google", QLatin1String "Google", QLatin1String "Google"⟩,
     ⟨[], QLatin1String "bing", QLatin1String "Bing", QLatin1String "Bing"⟩,
     ⟨QLatin1String "separator", [], [], []⟩,
     ⟨QLatin1String "configure", [], QLatin1String "Manage", QLatin1String "Manage"⟩]
  hasSearchEngine := fun _ => false
  formUrl := fun identifier =>
    if identifier = QLatin1String "google" then QLatin1String "https://google.example/" else []
  isValid := fun url => !url.isEmpty
  defaultSearchEngineOption := QVariant.ofString (QLatin1String "google")
  windowOption := fun _ => QVariant.ofString (QLatin1String "google")
  windowSearchEngines := fun _ =>
    some [⟨QLatin1String "Example", QLatin1String "https://example.org/osd.xml"⟩]
  findMainWindow := some 1
  findMainWindowOfWindow := fun _ => some 1
  calculateOpenHints := 0
  hidePopup := fun _ => ⟨false, PopupModel.noModel⟩
  searchUsing := fun title => QLatin1String "Search using " ++ title
  tr := fun text => text

/-- A search widget of 300 by 24, attached to window 1, unlocked, left to right,
without suggester, with current search engine `bing` and stored query `otter`. -/
def sampleWidget : SearchWidget where
  m_window := some 1
  m_suggester := none
  m_searchEngine := QLatin1String "bing"
  m_query := QLatin1String "otter"
  m_options := []
  m_iconRectangle := QRect.null
  m_dropdownArrowRectangle := QRect.null
  m_addButtonRectangle := QRect.null
  m_searchButtonRectangle := QRect.null
  m_isSearchEngineLocked := false
  text := QLatin1String "otter"
  toolTip := []
  placeholderText := []
  enabled := true
  width := 300
  height := 24
  isRightToLeft := false
  textMargins := ⟨0, 0, 0, 0⟩
  dropMode := DropMode.PasteDropMode
  selectAllOnFocus := false
  popup := ⟨false, PopupModel.noModel⟩
  setQueryConnections := 1
  nextSuggester := 0
  jobs := []
  effects := []

/-- The sample widget locked to the search engine `bing` by its options. -/
def lockedWidget : SearchWidget :=
  { sampleWidget with
    m_isSearchEngineLocked := true
    m_options := [(QLatin1String "searchEngine", QVariant.ofString (QLatin1String "bing"))] }

/-- The sample widget holding a suggester. -/
def suggestingWidget : SearchWidget :=
  { sampleWidget with m_suggester := some ⟨0, QLatin1String "bing", []⟩, nextSuggester := 1 }

/-- The sample widget with nothing typed and the search engine `google`, whose
form address is valid. -/
def idleWidget : SearchWidget :=
  { sampleWidget with m_query := [], text := [], m_searchEngine := QLatin1String "google" }

/-- The sample widget with nothing typed and the search engine `bing`, which has
no valid form address. -/
def idleBingWidget : SearchWidget :=
  { sampleWidget with m_query := [], text := [] }

/-! ## Theorems: `SplitterWidget` -/

namespace QString

theorem removeScan_length_le (needle : QString) (s : QString) :
    ∀ k, (removeScan needle k s).length ≤ s.length := by
  induction s with
  | nil => intro k; cases k <;> simp [removeScan]
  | cons c cs ih =>
    intro k
    cases k with
    | zero =>
      simp only [removeScan]
      split
      · exact Nat.le_succ_of_le (ih _)
      · simpa using ih 0
    | succ k =>
      simp only [removeScan]
      exact Nat.le_succ_of_le (ih k)

theorem removeStr_length_le (s needle : QString) :
    (s.removeStr needle).length ≤ s.length := by
  unfold removeStr
  split
  · exact Nat.le_refl _
  · exact removeScan_length_le needle s 0

theorem removeScan_of_not_infix (needle : QString) (s : QString)
    (h : ¬ needle <:+: s) : removeScan needle 0 s = s := by
  induction s with
  | nil => simp [removeScan]
  | cons c cs ih =>
    have hp : needle.isPrefixOf (c :: cs) = false := by
      cases hb : needle.isPrefixOf (c :: cs) with
      | false => rfl
      | true =>
        exact absurd (List.IsPrefix.isInfix (List.isPrefixOf_iff_prefix.mp hb)) h
    have hcs : ¬ needle <:+: cs := fun hi => h (List.IsInfix.trans hi (List.suffix_cons c cs).isInfix)
    simp [removeScan, hp, ih hcs]

theorem removeStr_of_not_infix (s needle : QString)
    (h : ¬ needle <:+: s) : s.removeStr needle = s := by
  unfold removeStr
  split
  · rfl
  · exact removeScan_of_not_infix needle s h

theorem removeAt_suffix (p suffix : QString) (h : 0 < suffix.length) :
    (p ++ suffix).removeAt (((p ++ suffix).length : Int) - suffix.length) suffix.length = p := by
  have hlen : (((p ++ suffix).length : Int) - suffix.length) = p.length := by
    simp
  rw [hlen]
  unfold removeAt
  simp only [List.length_append, Nat.cast_add]
  split_ifs <;> first | omega | simp

end QString

namespace SplitterWidget

theorem showEvent_of_initialized (env : SplitterEnv) (w : SplitterWidget)
    (h : w.m_isInitialized = true) : showEvent env w = w := by
  simp [showEvent, h]

theorem showEvents_of_initialized (envs : List SplitterEnv) (w : SplitterWidget)
    (h : w.m_isInitialized = true) : showEvents envs w = w := by
  induction envs with
  | nil => rfl
  | cons env envs ih =>
    show showEvents envs (showEvent env w) = w
    rw [showEvent_of_initialized env w h]
    exact ih

theorem showEvent_of_empty_name (env : SplitterEnv) (w : SplitterWidget)
    (h : normalizeSplitterName w.objectName = []) : showEvent env w = w := by
  unfold showEvent
  split
  · simp [h]
  · rfl

theorem showEvent_initialized_of_name (env : SplitterEnv) (w : SplitterWidget)
    (h : normalizeSplitterName w.objectName ≠ []) :
    (showEvent env w).m_isInitialized = true := by
  unfold showEvent
  cases hi : w.m_isInitialized with
  | true => simp [hi]
  | false =>
    have hne : (normalizeSplitterName w.objectName).isEmpty = false := by
      cases hn : normalizeSplitterName w.objectName with
      | nil => exact absurd hn h
      | cons _ _ => rfl
    simp [hne]

/-- C1: a splitter that is not yet initialised, has a non-empty normalised
object name and has a main window (the cached one, else the one found by
`MainWindow::findMainWindow`) that returns a non-empty list of saved sizes for
that name, hands exactly that list to `setSizes` in `showEvent` and is marked
initialised. -/
theorem showEvent_restores_saved_sizes (env : SplitterEnv) (w : SplitterWidget)
    (mainWindow : MainWindowId)
    (hinit : w.m_isInitialized = false)
    (hname : normalizeSplitterName w.objectName ≠ [])
    (hwindow : w.m_mainWindow = some mainWindow ∨
      (w.m_mainWindow = none ∧ env.findMainWindow = some mainWindow))
    (hsizes : env.getSplitterSizes mainWindow (normalizeSplitterName w.objectName) ≠ []) :
    (showEvent env w).sizes
        = env.getSplitterSizes mainWindow (normalizeSplitterName w.objectName) ∧
      (showEvent env w).m_isInitialized = true ∧
      (showEvent env w).m_mainWindow = some mainWindow := by
  have hne : (normalizeSplitterName w.objectName).isEmpty = false := by
    cases hn : normalizeSplitterName w.objectName with
    | nil => exact absurd hn hname
    | cons _ _ => rfl
  have hse : (env.getSplitterSizes mainWindow (normalizeSplitterName w.objectName)).isEmpty
      = false := by
    cases hn : env.getSplitterSizes mainWindow (normalizeSplitterName w.objectName) with
    | nil => exact absurd hn hsizes
    | cons _ _ => rfl
  unfold showEvent
  rcases hwindow with hc | ⟨hc, hf⟩
  · simp [hinit, hne, hc, hse]
  · simp [hinit, hne, hc, hf, hse]

/-- C4: saved geometry is applied at most once.  After a show event with a
non-empty normalised object name the widget is initialised, whatever main window
or sizes were found, and every later run of show events leaves the sizes and the
flag as they are; an initialised widget is left unchanged by any show event; a
show event with an empty normalised name changes neither the sizes nor the
flag. -/
theorem showEvent_applies_once (env : SplitterEnv) (w : SplitterWidget) :
    (normalizeSplitterName w.objectName ≠ [] →
      (showEvent env w).m_isInitialized = true ∧
      ∀ later : List SplitterEnv,
        (showEvents later (showEvent env w)).sizes = (showEvent env w).sizes ∧
        (showEvents later (showEvent env w)).m_isInitialized = true) ∧
    (∀ (env' : SplitterEnv) (w' : SplitterWidget), w'.m_isInitialized = true →
      (showEvent env' w').sizes = w'.sizes ∧ (showEvent env' w').m_isInitialized = true) ∧
    (normalizeSplitterName w.objectName = [] →
      (showEvent env w).sizes = w.sizes ∧
      (showEvent env w).m_isInitialized = w.m_isInitialized) := by
  refine ⟨fun h => ?_, fun env' w' h' => ?_, fun h => ?_⟩
  · have hi := showEvent_initialized_of_name env w h
    refine ⟨hi, fun later => ?_⟩
    rw [showEvents_of_initialized later _ hi]
    exact ⟨rfl, hi⟩
  · rw [showEvent_of_initialized env' w' h']
    exact ⟨rfl, h'⟩
  · rw [showEvent_of_empty_name env w h]
    exact ⟨rfl, rfl⟩

/-- The second step of `normalizeSplitterName`, relative to the result of the
first: the suffix case removes the 14 trailing code units, otherwise nothing
changes; the result is never longer than the name. -/
theorem normalizeSplitterName_of_removeStr (name : QString) :
    (QString.endsWith (name.removeStr (QLatin1String "Otter__"))
        (QLatin1String "SplitterWidget") = true →
      normalizeSplitterName name ++ QLatin1String "SplitterWidget"
        = name.removeStr (QLatin1String "Otter__")) ∧
    (QString.endsWith (name.removeStr (QLatin1String "Otter__"))
        (QLatin1String "SplitterWidget") = false →
      normalizeSplitterName name = name.removeStr (QLatin1String "Otter__")) ∧
    (¬ QLatin1String "Otter__" <:+: name →
      QString.endsWith name (QLatin1String "SplitterWidget") = false →
      normalizeSplitterName name = name) ∧
    (normalizeSplitterName name).length ≤ name.length := by
  have hsuffix : ∀ n' : QString,
      QString.endsWith n' (QLatin1String "SplitterWidget") = true →
      QString.removeAt n' ((n'.length : Int) - 14) 14 ++ QLatin1String "SplitterWidget" = n' := by
    intro n' h
    obtain ⟨p, hp⟩ := List.isSuffixOf_iff_suffix.mp h
    have h14 : ((QLatin1String "SplitterWidget").length : Int) = 14 := by decide
    have := QString.removeAt_suffix p (QLatin1String "SplitterWidget") (by decide)
    rw [h14, hp] at this
    rw [this, hp]
  have ha : QString.endsWith (name.removeStr (QLatin1String "Otter__"))
        (QLatin1String "SplitterWidget") = true →
      normalizeSplitterName name ++ QLatin1String "SplitterWidget"
        = name.removeStr (QLatin1String "Otter__") := by
    intro h
    simp only [normalizeSplitterName, h, if_true]
    exact hsuffix _ h
  have hb : QString.endsWith (name.removeStr (QLatin1String "Otter__"))
        (QLatin1String "SplitterWidget") = false →
      normalizeSplitterName name = name.removeStr (QLatin1String "Otter__") := by
    intro h
    simp [normalizeSplitterName, h]
  refine ⟨ha, hb, ?_, ?_⟩
  · intro hno hend
    have hr := QString.removeStr_of_not_infix name (QLatin1String "Otter__") hno
    have := hb (by rw [hr]; exact hend)
    rw [this, hr]
  · have hle := QString.removeStr_length_le name (QLatin1String "Otter__")
    cases hc : QString.endsWith (name.removeStr (QLatin1String "Otter__"))
        (QLatin1String "SplitterWidget") with
    | true =>
      have := congrArg List.length (ha hc)
      rw [List.length_append] at this
      omega
    | false =>
      rw [hb hc]
      exact hle

end SplitterWidget

/-! ## Theorems: removal of the marker -/

namespace QString

theorem removeScan_skip (needle : QString) (q rest : QString) :
    removeScan needle q.length (q ++ rest) = removeScan needle 0 rest := by
  induction q with
  | nil => rfl
  | cons c q ih => simpa [removeScan] using ih

theorem removeScan_hit (needle : QString) (c : Nat) (cs : QString)
    (h : needle.isPrefixOf (c :: cs) = true) :
    removeScan needle 0 (c :: cs) = removeScan needle (needle.length - 1) cs := by
  simp only [removeScan, h, if_true]

theorem removeScan_miss (needle : QString) (c : Nat) (cs : QString)
    (h : needle.isPrefixOf (c :: cs) = false) :
    removeScan needle 0 (c :: cs) = c :: removeScan needle 0 cs := by
  simp only [removeScan, h, Bool.false_eq_true, if_false]

theorem removeScan_needle (needle rest : QString) (hne : needle ≠ []) :
    removeScan needle 0 (needle ++ rest) = removeScan needle 0 rest := by
  cases needle with
  | nil => exact absurd rfl hne
  | cons c cs =>
    have hp : (c :: cs).isPrefixOf (c :: (cs ++ rest)) = true :=
      List.isPrefixOf_iff_prefix.mpr (List.prefix_append (c :: cs) rest)
    rw [List.cons_append, removeScan_hit _ _ _ hp]
    exact removeScan_skip (c :: cs) cs rest

theorem not_prefix_of_free (needle q rest : QString) (hu : Unbordered needle)
    (hq : q ≠ []) (free : ¬ needle <:+: q) : ¬ needle <+: q ++ needle ++ rest := by
  intro h
  have hqp : q <+: q ++ needle ++ rest := by
    rw [List.append_assoc]; exact List.prefix_append q _
  by_cases hlen : needle.length ≤ q.length
  · exact free (List.prefix_of_prefix_length_le h hqp hlen).isInfix
  · have hq' : q <+: needle := List.prefix_of_prefix_length_le hqp h (by omega)
    obtain ⟨t, ht⟩ := hq'
    have hd : needle.drop q.length = t := by
      rw [← ht, List.drop_left]
    have hlt : needle.length = q.length + t.length := by
      rw [← ht, List.length_append]
    have h2 : q ++ t <+: q ++ (needle ++ rest) := by
      rw [ht, ← List.append_assoc]; exact h
    have h3 : t <+: needle ++ rest := (List.prefix_append_right_inj q).mp h2
    have h4 : t <+: needle :=
      List.prefix_of_prefix_length_le h3 (List.prefix_append needle rest) (by omega)
    have hqpos : 0 < q.length := List.length_pos.mpr hq
    exact hu q.length hqpos (by omega) (by rw [hd]; exact h4)

theorem removeScan_piece (needle piece rest : QString) (hu : Unbordered needle)
    (hne : needle ≠ []) (free : ¬ needle <:+: piece) :
    removeScan needle 0 (piece ++ needle ++ rest) = piece ++ removeScan needle 0 rest := by
  induction piece with
  | nil => simpa using removeScan_needle needle rest hne
  | cons c cs ih =>
    have hp : needle.isPrefixOf (c :: (cs ++ needle ++ rest)) = false := by
      cases hb : needle.isPrefixOf (c :: (cs ++ needle ++ rest)) with
      | false => rfl
      | true =>
        exact absurd (List.isPrefixOf_iff_prefix.mp hb)
          (not_prefix_of_free needle (c :: cs) rest hu (by simp) free)
    have hcs : ¬ needle <:+: cs :=
      fun hi => free (List.IsInfix.trans hi (List.suffix_cons c cs).isInfix)
    rw [List.cons_append, List.cons_append, removeScan_miss _ _ _ hp, ih hcs,
      List.cons_append]

end QString

theorem occurrencesRemoved_eq_removeStr (needle name result : QString)
    (hu : Unbordered needle) (hne : needle ≠ [])
    (h : OccurrencesRemoved needle name result) : result = name.removeStr needle := by
  have hs : ∀ s : QString, s.removeStr needle = QString.removeScan needle 0 s := by
    intro s
    cases needle with
    | nil => exact absurd rfl hne
    | cons _ _ => rfl
  rw [hs]
  induction h with
  | last piece free => exact (QString.removeScan_of_not_infix needle piece free).symm
  | separated piece rest result free _ ih =>
    rw [QString.removeScan_piece needle piece rest hu hne free, ih]

theorem occurrencesRemoved_cons (needle : QString) (c : Nat) (s r : QString)
    (h : OccurrencesRemoved needle s r) (hp : ¬ needle <+: c :: s) :
    OccurrencesRemoved needle (c :: s) (c :: r) := by
  have key : ∀ piece : QString, ¬ needle <:+: piece → ¬ needle <+: c :: piece →
      ¬ needle <:+: c :: piece := by
    intro piece free hpre hin
    rcases List.infix_cons_iff.mp hin with h1 | h1
    · exact hpre h1
    · exact free h1
  cases h with
  | last piece free => exact OccurrencesRemoved.last _ (key s free hp)
  | separated piece rest result free tail =>
    have hpre : ¬ needle <+: c :: piece := by
      intro h1
      apply hp
      have : c :: piece <+: c :: (piece ++ needle ++ rest) := by
        rw [List.append_assoc]
        exact List.prefix_append (c :: piece) _
      exact h1.trans this
    have := OccurrencesRemoved.separated (c :: piece) rest result (key piece free hpre) tail
    simpa using this

theorem occurrencesRemoved_removeScan (needle : QString) (hne : needle ≠ []) :
    ∀ (n : Nat) (s : QString), s.length ≤ n →
      OccurrencesRemoved needle s (QString.removeScan needle 0 s) := by
  intro n
  induction n with
  | zero =>
    intro s hs
    have : s = [] := List.length_eq_zero.mp (by omega)
    subst this
    have hfree : ¬ needle <:+: [] := by
      intro h
      exact hne (List.eq_nil_of_infix_nil h)
    simpa [QString.removeScan] using (OccurrencesRemoved.last [] hfree : OccurrencesRemoved needle [] [])
  | succ n ih =>
    intro s hs
    cases s with
    | nil =>
      have hfree : ¬ needle <:+: [] := fun h => hne (List.eq_nil_of_infix_nil h)
      simpa [QString.removeScan] using (OccurrencesRemoved.last [] hfree : OccurrencesRemoved needle [] [])
    | cons c cs =>
      by_cases hp : needle <+: c :: cs
      · obtain ⟨rest, hrest⟩ := hp
        have hlen : rest.length ≤ n := by
          have := congrArg List.length hrest
          rw [List.length_append] at this
          have hpos : 0 < needle.length := List.length_pos.mpr hne
          simp only [List.length_cons] at this hs
          omega
        have hfree : ¬ needle <:+: [] := fun h => hne (List.eq_nil_of_infix_nil h)
        have := OccurrencesRemoved.separated [] rest _ hfree (ih rest hlen)
        rw [← hrest, QString.removeScan_needle needle rest hne]
        simpa using this
      · have hb : needle.isPrefixOf (c :: cs) = false := by
          cases hb : needle.isPrefixOf (c :: cs) with
          | false => rfl
          | true => exact absurd (List.isPrefixOf_iff_prefix.mp hb) hp
        rw [QString.removeScan_miss _ _ _ hb]
        exact occurrencesRemoved_cons needle c cs _
          (ih cs (by simp only [List.length_cons] at hs; omega)) hp

theorem unbordered_marker : Unbordered (QLatin1String "Otter__") := by
  intro d h0 hd
  have hlen : (QLatin1String "Otter__").length = 7 := by decide
  rw [hlen] at hd
  interval_cases d <;> decide

namespace SplitterWidget

/-- C5: let `n'` be the name with the occurrences of `"Otter__"` removed (the
name is a sequence of pieces without `"Otter__"`, separated by `"Otter__"`, and
`n'` is the pieces put together; such an `n'` exists for every name).  If `n'`
ends with `"SplitterWidget"`, the normalised name `r` satisfies
`r ++ "SplitterWidget" = n'`; otherwise `r = n'`.  A name without `"Otter__"`
that does not end with `"SplitterWidget"` is returned unchanged, and the result
is never longer than the name. -/
theorem normalizeSplitterName_spec (name : QString) :
    (∃ n' : QString, OccurrencesRemoved (QLatin1String "Otter__") name n') ∧
    (∀ n' : QString, OccurrencesRemoved (QLatin1String "Otter__") name n' →
      (QString.endsWith n' (QLatin1String "SplitterWidget") = true →
        normalizeSplitterName name ++ QLatin1String "SplitterWidget" = n') ∧
      (QString.endsWith n' (QLatin1String "SplitterWidget") = false →
        normalizeSplitterName name = n')) ∧
    (¬ QLatin1String "Otter__" <:+: name →
      QString.endsWith name (QLatin1String "SplitterWidget") = false →
      normalizeSplitterName name = name) ∧
    (normalizeSplitterName name).length ≤ name.length := by
  obtain ⟨ha, hb, hc, hd⟩ := normalizeSplitterName_of_removeStr name
  have hne : QLatin1String "Otter__" ≠ [] := by decide
  refine ⟨⟨QString.removeScan (QLatin1String "Otter__") 0 name,
    occurrencesRemoved_removeScan _ hne name.length name (Nat.le_refl _)⟩, ?_, hc, hd⟩
  intro n' hn
  have := occurrencesRemoved_eq_removeStr _ name n' unbordered_marker hne hn
  subst this
  exact ⟨ha, hb⟩

end SplitterWidget

/-! ## Theorems: `SearchWidget` -/

namespace SearchWidget

/-- C2: after `handleOptionChanged(AddressField_DropActionOption, value)` the
drop mode is `ReplaceAndNotifyDropMode` when the string of the value is exactly
`"pasteAndGo"`, `ReplaceDropMode` when it is exactly `"replace"`, and
`PasteDropMode` for every other string; the last case includes the empty
string. -/
theorem handleOptionChanged_dropMode (w : SearchWidget) (value : QVariant) :
    (value.toString = QLatin1String "pasteAndGo" →
      (handleOptionChanged w OptionIdentifier.AddressField_DropActionOption value).dropMode
        = DropMode.ReplaceAndNotifyDropMode) ∧
    (value.toString = QLatin1String "replace" →
      (handleOptionChanged w OptionIdentifier.AddressField_DropActionOption value).dropMode
        = DropMode.ReplaceDropMode) ∧
    (value.toString ≠ QLatin1String "pasteAndGo" → value.toString ≠ QLatin1String "replace" →
      (handleOptionChanged w OptionIdentifier.AddressField_DropActionOption value).dropMode
        = DropMode.PasteDropMode) ∧
    (value.toString = [] →
      (handleOptionChanged w OptionIdentifier.AddressField_DropActionOption value).dropMode
        = DropMode.PasteDropMode) := by
  refine ⟨fun h => ?_, fun h => ?_, fun h1 h2 => ?_, fun h => ?_⟩
  · simp only [handleOptionChanged]
    rw [if_pos h]
  · simp only [handleOptionChanged]
    rw [if_neg (by rw [h]; decide), if_pos h]
  · simp only [handleOptionChanged]
    rw [if_neg h1, if_neg h2]
  · simp only [handleOptionChanged]
    rw [if_neg (by rw [h]; decide), if_neg (by rw [h]; decide)]

theorem jobFinished_effects (env : SearchEnv) (isSuccess : Bool) (w : SearchWidget) :
    (jobFinished env isSuccess 1 w).effects
      = w.effects ++
        (if isSuccess then []
         else [Effect.warning (env.tr (QLatin1String "Error"))
                (env.tr (QLatin1String "Failed to add search engine."))]) := by
  cases isSuccess <;> simp [jobFinished, addSearchEngineFinished, perform]

/-- C3: for a non-null action `addSearchEngine` creates exactly one fetch job,
for the address stored in the data of the action, and shows nothing itself;
when that job reports `jobFinished(isSuccess)` the warning
"Failed to add search engine." is shown, once, if and only if `isSuccess` is
false.  For the null action nothing changes: no job, no warning. -/
theorem addSearchEngine_warns_on_failure (env : SearchEnv) (w : SearchWidget) :
    (∀ action : QAction, ∃ job : SearchEngineFetchJob,
      (addSearchEngine w (some action)).jobs = w.jobs ++ [job] ∧
      job.url = action.data.toUrl ∧
      (addSearchEngine w (some action)).effects = w.effects ∧
      ∀ (isSuccess : Bool) (later : SearchWidget),
        (jobFinished env isSuccess job.failureHandlers later).effects
          = later.effects ++
            (if isSuccess then []
             else [Effect.warning (env.tr (QLatin1String "Error"))
                    (env.tr (QLatin1String "Failed to add search engine."))])) ∧
    addSearchEngine w none = w := by
  refine ⟨fun action => ⟨⟨action.data.toUrl, [], true, 1⟩, rfl, rfl, rfl, ?_⟩, rfl⟩
  intro isSuccess later
  exact jobFinished_effects env isSuccess later

/-- C6: when the identifier is not `Search_DefaultSearchEngineOption`, or the
search engine is locked and the string of the value differs from the
`"searchEngine"` entry of the widget options, `handleWindowOptionChanged` leaves
the current search engine, the enabled state, the tooltip, the placeholder text
and the stored query unchanged; indeed the whole widget is unchanged. -/
theorem handleWindowOptionChanged_locked_frame (env : SearchEnv) (w : SearchWidget)
    (identifier : OptionIdentifier) (value : QVariant)
    (h : identifier ≠ OptionIdentifier.Search_DefaultSearchEngineOption ∨
      (w.m_isSearchEngineLocked = true ∧
        value.toString
          ≠ (w.m_options.value (QLatin1String "searchEngine") QVariant.invalid).toString)) :
    (handleWindowOptionChanged env w identifier value).m_searchEngine = w.m_searchEngine ∧
    (handleWindowOptionChanged env w identifier value).enabled = w.enabled ∧
    (handleWindowOptionChanged env w identifier value).toolTip = w.toolTip ∧
    (handleWindowOptionChanged env w identifier value).placeholderText = w.placeholderText ∧
    (handleWindowOptionChanged env w identifier value).m_query = w.m_query ∧
    handleWindowOptionChanged env w identifier value = w := by
  have hw : handleWindowOptionChanged env w identifier value = w := by
    unfold handleWindowOptionChanged
    by_cases hid : identifier = OptionIdentifier.Search_DefaultSearchEngineOption
    · rcases h with h | ⟨hl, hv⟩
      · exact absurd hid h
      · rw [if_pos hid]
        unfold setSearchEngine
        rw [if_pos ⟨hl, hv⟩]
    · rw [if_neg hid]
  rw [hw]
  exact ⟨rfl, rfl, rfl, rfl, rfl, rfl⟩

/-- C7: after `handleOptionChanged(Search_SearchEnginesSuggestionsOption, v)`
the widget holds a suggester if and only if `v` converts to true, and a
suggester that exists already when `v` is true is kept. -/
theorem handleOptionChanged_suggester (w : SearchWidget) (v : QVariant) :
    ((handleOptionChanged w OptionIdentifier.Search_SearchEnginesSuggestionsOption v).m_suggester.isSome
        = true ↔ v.toBool = true) ∧
      ∀ suggester : SearchSuggester, w.m_suggester = some suggester → v.toBool = true →
        (handleOptionChanged w OptionIdentifier.Search_SearchEnginesSuggestionsOption v).m_suggester
          = some suggester := by
  constructor
  · simp only [handleOptionChanged]
    cases hv : v.toBool <;> cases hs : w.m_suggester <;> simp [hs]
  · intro suggester hs hv
    simp [handleOptionChanged, hs, hv]

theorem hasAllSearchEngines_eq_false (env : SearchEnv) (l : List LinkUrl) :
    hasAllSearchEngines env l = false ↔ ∃ e ∈ l, env.hasSearchEngine e.url = false := by
  induction l with
  | nil => simp [hasAllSearchEngines]
  | cons e es ih =>
    cases he : env.hasSearchEngine e.url <;> simp [hasAllSearchEngines, he, ih]

theorem isEmpty_of_hasAllSearchEngines_false (env : SearchEnv) (l : List LinkUrl)
    (h : hasAllSearchEngines env l = false) : l.isEmpty = false := by
  cases l with
  | nil => simp [hasAllSearchEngines] at h
  | cons _ _ => rfl

/-- What `updateControlGeometries` leaves alone, and the rectangles and margins
it computes, by layout direction, lock state and search button option. -/
theorem updateControlGeometries_spec (w : SearchWidget) :
    (updateControlGeometries w).1.m_window = w.m_window ∧
    (updateControlGeometries w).1.width = w.width ∧
    (updateControlGeometries w).1.height = w.height ∧
    (updateControlGeometries w).1.m_addButtonRectangle = QRect.null ∧
    (updateControlGeometries w).1.m_iconRectangle
      = (if w.isRightToLeft then QRect.ofSize (w.width - 2 - 20) (Int.tdiv (w.height - 16) 2) 16 16
         else QRect.ofSize (max (Int.tdiv (w.height - 16) 2) 2) (Int.tdiv (w.height - 16) 2) 16 16) ∧
    (updateControlGeometries w).1.m_dropdownArrowRectangle
      = (if w.m_isSearchEngineLocked then QRect.null
         else if w.isRightToLeft then QRect.ofSize (w.width - (2 + 20) - 14) 0 14 w.height
         else QRect.ofSize (max (Int.tdiv (w.height - 16) 2) 2 + 20) 0 14 w.height) ∧
    (updateControlGeometries w).1.m_searchButtonRectangle
      = (if (w.m_options.value (QLatin1String "showSearchButton") (QVariant.ofBool true)).toBool
         then
           if w.isRightToLeft then
             QRect.ofSize (max (Int.tdiv (w.height - 16) 2) 2) (Int.tdiv (w.height - 16) 2) 16 16
           else QRect.ofSize (w.width - 2 - 20) (Int.tdiv (w.height - 16) 2) 16 16
         else QRect.null) ∧
    (updateControlGeometries w).2.left
      = max (Int.tdiv (w.height - 16) 2) 2
        + (if w.isRightToLeft then
            (if (w.m_options.value (QLatin1String "showSearchButton") (QVariant.ofBool true)).toBool
              then 20 else 0)
          else 20 + (if w.m_isSearchEngineLocked then 0 else 12)) ∧
    (updateControlGeometries w).2.right
      = 2 + (if w.isRightToLeft then 20 + (if w.m_isSearchEngineLocked then 0 else 12)
          else
            (if (w.m_options.value (QLatin1String "showSearchButton") (QVariant.ofBool true)).toBool
              then 20 else 0)) := by
  cases hr : w.isRightToLeft <;> cases hl : w.m_isSearchEngineLocked <;>
    cases hs : (w.m_options.value (QLatin1String "showSearchButton")
      (QVariant.ofBool true)).toBool <;>
    simp [updateControlGeometries, hr, hl, hs] <;> ring

/-- The add button as `updateGeometries` places it, in terms of the margins left
by the other controls; the other three rectangles are those of the first
part. -/
theorem updateGeometries_rects (env : SearchEnv) (w : SearchWidget) :
    (updateGeometries env w).m_addButtonRectangle
      = (if w.m_window.isSome = true ∧
            hasAllSearchEngines env (pageSearchEngines env w) = false ∧
            ((QRect.ofSize 0 0 w.width w.height).marginsRemoved
              (updateControlGeometries w).2).width > 50 then
          if w.isRightToLeft then
            QRect.ofSize (updateControlGeometries w).2.left (Int.tdiv (w.height - 16) 2) 16 16
          else
            QRect.ofSize (w.width - (updateControlGeometries w).2.right - 20)
              (Int.tdiv (w.height - 16) 2) 16 16
        else QRect.null) ∧
    (updateGeometries env w).m_iconRectangle = (updateControlGeometries w).1.m_iconRectangle ∧
    (updateGeometries env w).m_dropdownArrowRectangle
      = (updateControlGeometries w).1.m_dropdownArrowRectangle ∧
    (updateGeometries env w).m_searchButtonRectangle
      = (updateControlGeometries w).1.m_searchButtonRectangle := by
  obtain ⟨hwin, hwidth, hheight, hadd, -⟩ := updateControlGeometries_spec w
  have hne := isEmpty_of_hasAllSearchEngines_false env (pageSearchEngines env w)
  unfold updateGeometries
  generalize updateControlGeometries w = c at *
  obtain ⟨c1, c2⟩ := c
  simp only at hwin hwidth hheight hadd ⊢
  cases hall : hasAllSearchEngines env (pageSearchEngines env w) with
  | true => simp [hwin, hadd]
  | false =>
    have hemp := hne hall
    by_cases hwide : ((QRect.ofSize 0 0 w.width w.height).marginsRemoved c2).width > 50
    · cases hw : w.m_window.isSome <;> cases hr : w.isRightToLeft <;>
        simp [hwin, hadd, hwidth, hheight, hemp, hwide, hw, hr]
    · simp [hwin, hadd, hemp, hwide]

theorem not_sharesPoint_of_right (r s : QRect) (hr : r.x1 ≤ r.x2) (hs : s.x1 - 1 ≤ s.x2)
    (h : s.x2 < r.x1) : ¬ QRect.SharesPoint r s := by
  rintro ⟨px, py, h1, h2⟩
  simp only [QRect.contains, Bool.and_eq_true, Bool.not_eq_true', Bool.or_eq_false_iff,
    decide_eq_false_iff_not] at h1 h2
  split_ifs at h1 h2 <;> omega

theorem not_sharesPoint_of_left (r s : QRect) (hr : r.x1 ≤ r.x2) (hs : s.x1 - 1 ≤ s.x2)
    (h : r.x2 < s.x1) : ¬ QRect.SharesPoint r s := by
  rintro ⟨px, py, h1, h2⟩
  simp only [QRect.contains, Bool.and_eq_true, Bool.not_eq_true', Bool.or_eq_false_iff,
    decide_eq_false_iff_not] at h1 h2
  split_ifs at h1 h2 <;> omega

theorem not_sharesPoint_null (r : QRect) : ¬ QRect.SharesPoint r QRect.null := by
  rintro ⟨px, py, -, h2⟩
  simp only [QRect.contains, QRect.null, Bool.and_eq_true, Bool.not_eq_true',
    Bool.or_eq_false_iff, decide_eq_false_iff_not] at h2
  split_ifs at h2 <;> omega

/-- C8: for every width and height, both layout directions, both lock states and
both values of the `"showSearchButton"` option: when `updateGeometries` assigns
the add button (a window is attached, the page offers a search engine that is
not known, and the widget rectangle minus the text margins is wider than 50),
the rectangle of the add button is 16 by 16 and shares no point with the
rectangle of the icon, of the drop-down arrow or of the search button; otherwise
the rectangle of the add button is the null rectangle. -/
theorem updateGeometries_addButton_clear (env : SearchEnv) (w : SearchWidget) :
    ((w.m_window.isSome = true ∧
        (∃ e ∈ pageSearchEngines env w, env.hasSearchEngine e.url = false) ∧
        ((QRect.ofSize 0 0 w.width w.height).marginsRemoved
          (updateControlGeometries w).2).width > 50) →
      (updateGeometries env w).m_addButtonRectangle.width = 16 ∧
      (updateGeometries env w).m_addButtonRectangle.height = 16 ∧
      ¬ QRect.SharesPoint (updateGeometries env w).m_addButtonRectangle
          (updateGeometries env w).m_iconRectangle ∧
      ¬ QRect.SharesPoint (updateGeometries env w).m_addButtonRectangle
          (updateGeometries env w).m_dropdownArrowRectangle ∧
      ¬ QRect.SharesPoint (updateGeometries env w).m_addButtonRectangle
          (updateGeometries env w).m_searchButtonRectangle) ∧
    (¬ (w.m_window.isSome = true ∧
        (∃ e ∈ pageSearchEngines env w, env.hasSearchEngine e.url = false) ∧
        ((QRect.ofSize 0 0 w.width w.height).marginsRemoved
          (updateControlGeometries w).2).width > 50) →
      (updateGeometries env w).m_addButtonRectangle = QRect.null) := by
  rw [← hasAllSearchEngines_eq_false]
  obtain ⟨hadd, hicon, harrow, hsearch⟩ := updateGeometries_rects env w
  obtain ⟨-, -, -, -, hi, ha, hs, hleft, hright⟩ := updateControlGeometries_spec w
  rw [hicon, harrow, hsearch, hi, ha, hs]
  constructor
  · intro hcond
    rw [hadd, if_pos hcond]
    obtain ⟨-, -, hwide⟩ := hcond
    simp only [QRect.width, QRect.marginsRemoved, QRect.ofSize, hleft, hright] at hwide
    rw [hleft, hright]
    generalize max (Int.tdiv (w.height - 16) 2) 2 = m at *
    generalize Int.tdiv (w.height - 16) 2 = t at *
    cases hr : w.isRightToLeft <;> cases hl : w.m_isSearchEngineLocked <;>
      cases hb : (w.m_options.value (QLatin1String "showSearchButton")
        (QVariant.ofBool true)).toBool <;>
      simp only [hr, hl, hb, if_true, if_false, Bool.false_eq_true] at hwide ⊢ <;>
      refine ⟨by simp only [QRect.width, QRect.ofSize]; omega,
        by simp only [QRect.height, QRect.ofSize]; omega, ?_, ?_, ?_⟩ <;>
      first
        | exact not_sharesPoint_null _
        | (apply not_sharesPoint_of_right <;> simp only [QRect.ofSize] <;> omega)
        | (apply not_sharesPoint_of_left <;> simp only [QRect.ofSize] <;> omega)
  · intro hcond
    rw [hadd, if_neg hcond]


theorem updateControlGeometries_frame (w : SearchWidget) :
    (updateControlGeometries w).1.m_searchEngine = w.m_searchEngine ∧
    (updateControlGeometries w).1.m_query = w.m_query ∧
    (updateControlGeometries w).1.text = w.text ∧
    (updateControlGeometries w).1.popup = w.popup ∧
    (updateControlGeometries w).1.setQueryConnections = w.setQueryConnections := by
  cases hr : w.isRightToLeft <;> cases hl : w.m_isSearchEngineLocked <;>
    cases hs : (w.m_options.value (QLatin1String "showSearchButton")
      (QVariant.ofBool true)).toBool <;>
    simp [updateControlGeometries, hr, hl, hs]

theorem updateGeometries_frame (env : SearchEnv) (w : SearchWidget) :
    (updateGeometries env w).m_searchEngine = w.m_searchEngine ∧
    (updateGeometries env w).m_query = w.m_query ∧
    (updateGeometries env w).text = w.text ∧
    (updateGeometries env w).popup = w.popup ∧
    (updateGeometries env w).setQueryConnections = w.setQueryConnections := by
  obtain ⟨h1, h2, h3, h4, h5⟩ := updateControlGeometries_frame w
  unfold updateGeometries
  generalize updateControlGeometries w = c at *
  obtain ⟨c1, c2⟩ := c
  simp only at h1 h2 h3 h4 h5 ⊢
  split_ifs <;> simp [h1, h2, h3, h4, h5]

theorem setQuery_frame (env : SearchEnv) (w : SearchWidget) (query : QString) :
    (setQuery env w query).m_searchEngine = w.m_searchEngine ∧
    (setQuery env w query).text = w.text ∧
    (setQuery env w query).m_query = query := by
  simp only [setQuery]
  split <;> simp [hidePopup]

theorem emitTextChanged_frame (env : SearchEnv) (text : QString) (n : Nat) :
    ∀ w : SearchWidget,
      (emitTextChanged env text n w).m_searchEngine = w.m_searchEngine ∧
      (emitTextChanged env text n w).text = w.text ∧
      ((emitTextChanged env text n w).m_query = w.m_query ∨
        (emitTextChanged env text n w).m_query = text) := by
  induction n with
  | zero => intro w; simp [emitTextChanged]
  | succ n ih =>
    intro w
    obtain ⟨h1, h2, h3⟩ := setQuery_frame env w text
    obtain ⟨i1, i2, i3⟩ := ih (setQuery env w text)
    simp only [emitTextChanged]
    refine ⟨by rw [i1, h1], by rw [i2, h2], Or.inr ?_⟩
    rcases i3 with i3 | i3
    · rw [i3, h3]
    · exact i3

theorem setText_frame (env : SearchEnv) (w : SearchWidget) (text : QString) :
    (setText env w text).m_searchEngine = w.m_searchEngine ∧
    (setText env w text).text = text ∧
    ((setText env w text).m_query = w.m_query ∨ (setText env w text).m_query = text) := by
  unfold setText
  split
  · next h => exact ⟨rfl, h, Or.inl rfl⟩
  · obtain ⟨h1, h2, h3⟩ := emitTextChanged_frame env text w.setQueryConnections
      { w with text := text }
    exact ⟨h1, h2, h3⟩

/-- After `restoreCurrentSearchEngine` the member `m_searchEngine` is empty,
whatever it was before, and the displayed text is the stored query. -/
theorem restoreCurrentSearchEngine_result (env : SearchEnv) (w : SearchWidget) :
    (restoreCurrentSearchEngine env w).m_searchEngine = [] ∧
    (restoreCurrentSearchEngine env w).text = (restoreCurrentSearchEngine env w).m_query := by
  unfold restoreCurrentSearchEngine
  simp only
  generalize hw1 : (if (!w.m_searchEngine.isEmpty) = true then
      { setSearchEngine env w w.m_searchEngine with m_searchEngine := [] } else w) = w1
  have he : w1.m_searchEngine = [] := by
    rw [← hw1]
    split
    · rfl
    · next h =>
      cases hs : w.m_searchEngine with
      | nil => rfl
      | cons a b => simp [hs] at h
  obtain ⟨g1, g2, -⟩ := updateGeometries_frame env w1
  obtain ⟨t1, t2, t3⟩ := setText_frame env (updateGeometries env w1) (updateGeometries env w1).m_query
  refine ⟨by rw [t1, g1, he], ?_⟩
  show (setText env (updateGeometries env w1) (updateGeometries env w1).m_query).text
    = (setText env (updateGeometries env w1) (updateGeometries env w1).m_query).m_query
  rcases t3 with t3 | t3 <;> rw [t2, t3]


/-- C10, evaluated at a widget that meets every condition of the claim: the
current search engine `bing` is non-empty and known, the widget is not locked,
and the popup does not show the suggester model.  After
`restoreCurrentSearchEngine` the tooltip names Bing and the text equals the
stored query, but `m_searchEngine` is empty, so the next `sendRequest` emits
`requestedSearch` with an empty search engine identifier. -/
theorem restoreCurrentSearchEngine_loses_engine :
    sampleWidget.m_searchEngine = QLatin1String "bing" ∧
    QLatin1String "bing" ∈ sampleEnv.searchEngines ∧
    sampleWidget.m_isSearchEngineLocked = false ∧
    popupShowsSuggester sampleWidget = false ∧
    (restoreCurrentSearchEngine sampleEnv sampleWidget).toolTip
      = QLatin1String "Search using Bing" ∧
    (restoreCurrentSearchEngine sampleEnv sampleWidget).text = QLatin1String "otter" ∧
    (restoreCurrentSearchEngine sampleEnv sampleWidget).m_query = QLatin1String "otter" ∧
    (restoreCurrentSearchEngine sampleEnv sampleWidget).m_searchEngine = [] ∧
    (sendRequest sampleEnv (restoreCurrentSearchEngine sampleEnv sampleWidget) []).effects
      = [Effect.windowSetOption 1 (QLatin1String "bing"),
         Effect.requestedSearch (QLatin1String "otter") [] 0] := by
  decide

/-- C11: `sendRequest(q)` stores `q` when it is non-empty and keeps the stored
query otherwise, and leaves the current search engine alone.  When the stored
query is non-empty afterwards, exactly one effect is added: `requestedSearch`
with the stored query and the current search engine.  When it is empty, no
`requestedSearch` is added; the open-address action for the form address of the
current search engine is triggered, once, when that address is valid and a main
window is found, and nothing happens otherwise. -/
theorem sendRequest_spec (env : SearchEnv) (w : SearchWidget) (q : QString) :
    (sendRequest env w q).m_query = (if q = [] then w.m_query else q) ∧
    (sendRequest env w q).m_searchEngine = w.m_searchEngine ∧
    ((sendRequest env w q).m_query ≠ [] →
      (sendRequest env w q).effects
        = w.effects ++ [Effect.requestedSearch (sendRequest env w q).m_query w.m_searchEngine
            env.calculateOpenHints]) ∧
    ((sendRequest env w q).m_query = [] →
      (∀ mainWindow : MainWindowId,
        env.isValid (env.formUrl w.m_searchEngine) = true →
        (match w.m_window with
          | some window => env.findMainWindowOfWindow window
          | none => env.findMainWindow) = some mainWindow →
        (sendRequest env w q).effects
          = w.effects ++ [Effect.triggerOpenUrl mainWindow (env.formUrl w.m_searchEngine)
              env.calculateOpenHints]) ∧
      (env.isValid (env.formUrl w.m_searchEngine) = false ∨
          (match w.m_window with
            | some window => env.findMainWindowOfWindow window
            | none => env.findMainWindow) = none →
        (sendRequest env w q).effects = w.effects) ∧
      ∃ rest : List Effect, (sendRequest env w q).effects = w.effects ++ rest ∧
        ∀ (query searchEngine : QString) (hints : Nat),
          Effect.requestedSearch query searchEngine hints ∉ rest) := by
  cases q with
  | cons c cs =>
    refine ⟨?_, ?_, ?_, ?_⟩ <;> simp [sendRequest, perform]
  | nil =>
    cases hm : w.m_query with
    | cons c cs =>
      refine ⟨?_, ?_, ?_, ?_⟩ <;> simp [sendRequest, perform, hm]
    | nil =>
      cases hv : env.isValid (env.formUrl w.m_searchEngine) <;>
        cases hw : w.m_window <;>
        simp [sendRequest, perform, hm, hv, hw] <;>
        split <;> simp_all

end SearchWidget

/-! ## The theorems at concrete inputs -/

/-- The first show event of the sample splitter: its name normalises to `Main`, the
main window is found, and the saved sizes `[240, 720]` are applied. -/
theorem showEvent_restores_saved_sizes_witness :
    sampleSplitter.m_isInitialized = false ∧
    SplitterWidget.normalizeSplitterName sampleSplitter.objectName = QLatin1String "Main" ∧
    sampleSplitterEnv.getSplitterSizes 1 (QLatin1String "Main") = [240, 720] ∧
    ((SplitterWidget.showEvent sampleSplitterEnv sampleSplitter).sizes
        = sampleSplitterEnv.getSplitterSizes 1
            (SplitterWidget.normalizeSplitterName sampleSplitter.objectName) ∧
      (SplitterWidget.showEvent sampleSplitterEnv sampleSplitter).m_isInitialized = true ∧
      (SplitterWidget.showEvent sampleSplitterEnv sampleSplitter).m_mainWindow = some 1) :=
  ⟨rfl, by decide, by decide,
    SplitterWidget.showEvent_restores_saved_sizes sampleSplitterEnv sampleSplitter 1 rfl
      (by decide) (Or.inr ⟨rfl, rfl⟩) (by decide)⟩

/-- The sample splitter stays as its first show event left it, and the splitter
whose name normalises to the empty string is not touched. -/
theorem showEvent_applies_once_witness :
    ((SplitterWidget.showEvent sampleSplitterEnv sampleSplitter).m_isInitialized = true ∧
      ∀ later : List SplitterEnv,
        (SplitterWidget.showEvents later
            (SplitterWidget.showEvent sampleSplitterEnv sampleSplitter)).sizes
          = (SplitterWidget.showEvent sampleSplitterEnv sampleSplitter).sizes ∧
        (SplitterWidget.showEvents later
            (SplitterWidget.showEvent sampleSplitterEnv sampleSplitter)).m_isInitialized
          = true) ∧
    ((SplitterWidget.showEvent sampleSplitterEnv unnamedSplitter).sizes = unnamedSplitter.sizes ∧
      (SplitterWidget.showEvent sampleSplitterEnv unnamedSplitter).m_isInitialized
        = unnamedSplitter.m_isInitialized) :=
  ⟨(SplitterWidget.showEvent_applies_once sampleSplitterEnv sampleSplitter).1 (by decide),
    (SplitterWidget.showEvent_applies_once sampleSplitterEnv unnamedSplitter).2.2 (by decide)⟩

/-- Three names: `Otter__MainSplitterWidget` normalises to `Main`, `Otter__Side`
to `Side`, and `sidebar` to itself. -/
theorem normalizeSplitterName_spec_witness :
    SplitterWidget.normalizeSplitterName (QLatin1String "Otter__MainSplitterWidget")
      = QLatin1String "Main" ∧
    SplitterWidget.normalizeSplitterName (QLatin1String "Otter__MainSplitterWidget")
        ++ QLatin1String "SplitterWidget"
      = QLatin1String "MainSplitterWidget" ∧
    SplitterWidget.normalizeSplitterName (QLatin1String "Otter__Side") = QLatin1String "Side" ∧
    SplitterWidget.normalizeSplitterName (QLatin1String "sidebar") = QLatin1String "sidebar" :=
  ⟨by decide,
    ((SplitterWidget.normalizeSplitterName_spec (QLatin1String "Otter__MainSplitterWidget")).2.1
      (QLatin1String "MainSplitterWidget")
      (OccurrencesRemoved.separated [] (QLatin1String "MainSplitterWidget") _ (by decide)
        (OccurrencesRemoved.last _ (by decide)))).1 (by decide),
    ((SplitterWidget.normalizeSplitterName_spec (QLatin1String "Otter__Side")).2.1
      (QLatin1String "Side")
      (OccurrencesRemoved.separated [] (QLatin1String "Side") _ (by decide)
        (OccurrencesRemoved.last _ (by decide)))).2 (by decide),
    (SplitterWidget.normalizeSplitterName_spec (QLatin1String "sidebar")).2.2.1
      (by decide) (by decide)⟩

/-- The three drop actions `pasteAndGo`, `replace` and `paste`, and an invalid
value, whose string is empty. -/
theorem handleOptionChanged_dropMode_witness :
    (SearchWidget.handleOptionChanged sampleWidget OptionIdentifier.AddressField_DropActionOption
        (QVariant.ofString (QLatin1String "pasteAndGo"))).dropMode
      = DropMode.ReplaceAndNotifyDropMode ∧
    (SearchWidget.handleOptionChanged sampleWidget OptionIdentifier.AddressField_DropActionOption
        (QVariant.ofString (QLatin1String "replace"))).dropMode
      = DropMode.ReplaceDropMode ∧
    (SearchWidget.handleOptionChanged sampleWidget OptionIdentifier.AddressField_DropActionOption
        (QVariant.ofString (QLatin1String "paste"))).dropMode
      = DropMode.PasteDropMode ∧
    (SearchWidget.handleOptionChanged sampleWidget OptionIdentifier.AddressField_DropActionOption
        QVariant.invalid).dropMode
      = DropMode.PasteDropMode :=
  ⟨(SearchWidget.handleOptionChanged_dropMode sampleWidget
      (QVariant.ofString (QLatin1String "pasteAndGo"))).1 rfl,
    (SearchWidget.handleOptionChanged_dropMode sampleWidget
      (QVariant.ofString (QLatin1String "replace"))).2.1 rfl,
    (SearchWidget.handleOptionChanged_dropMode sampleWidget
      (QVariant.ofString (QLatin1String "paste"))).2.2.1 (by decide) (by decide),
    (SearchWidget.handleOptionChanged_dropMode sampleWidget QVariant.invalid).2.2.2 rfl⟩

/-- A widget locked to `bing` ignores a window that switches to `google`. -/
theorem handleWindowOptionChanged_locked_frame_witness :
    lockedWidget.m_isSearchEngineLocked = true ∧
    SearchWidget.handleWindowOptionChanged sampleEnv lockedWidget
        OptionIdentifier.Search_DefaultSearchEngineOption
        (QVariant.ofString (QLatin1String "google")) = lockedWidget :=
  ⟨rfl,
    (SearchWidget.handleWindowOptionChanged_locked_frame sampleEnv lockedWidget
      OptionIdentifier.Search_DefaultSearchEngineOption
      (QVariant.ofString (QLatin1String "google")) (Or.inr ⟨rfl, by decide⟩)).2.2.2.2.2⟩

/-- Switching suggestions on again keeps the suggester that is there. -/
theorem handleOptionChanged_suggester_witness :
    (SearchWidget.handleOptionChanged suggestingWidget
        OptionIdentifier.Search_SearchEnginesSuggestionsOption (QVariant.ofBool true)).m_suggester
      = some ⟨0, QLatin1String "bing", []⟩ :=
  (SearchWidget.handleOptionChanged_suggester suggestingWidget (QVariant.ofBool true)).2
    ⟨0, QLatin1String "bing", []⟩ rfl rfl

/-- The add button of the sample widget, 300 wide, lies clear of the other
controls. -/
theorem updateGeometries_addButton_clear_witness :
    (SearchWidget.updateGeometries sampleEnv sampleWidget).m_addButtonRectangle.width = 16 ∧
    (SearchWidget.updateGeometries sampleEnv sampleWidget).m_addButtonRectangle.height = 16 ∧
    ¬ QRect.SharesPoint (SearchWidget.updateGeometries sampleEnv sampleWidget).m_addButtonRectangle
        (SearchWidget.updateGeometries sampleEnv sampleWidget).m_iconRectangle ∧
    ¬ QRect.SharesPoint (SearchWidget.updateGeometries sampleEnv sampleWidget).m_addButtonRectangle
        (SearchWidget.updateGeometries sampleEnv sampleWidget).m_dropdownArrowRectangle ∧
    ¬ QRect.SharesPoint (SearchWidget.updateGeometries sampleEnv sampleWidget).m_addButtonRectangle
        (SearchWidget.updateGeometries sampleEnv sampleWidget).m_searchButtonRectangle :=
  (SearchWidget.updateGeometries_addButton_clear sampleEnv sampleWidget).1
    ⟨rfl,
      ⟨⟨QLatin1String "Example", QLatin1String "https://example.org/osd.xml"⟩,
        List.Mem.head _, rfl⟩,
      by decide⟩

/-- A typed query is searched for; with nothing typed the form address of
`google` is opened, and nothing happens for `bing`, which has none. -/
theorem sendRequest_spec_witness :
    (SearchWidget.sendRequest sampleEnv idleWidget (QLatin1String "lean")).effects
      = idleWidget.effects ++
        [Effect.requestedSearch
          (SearchWidget.sendRequest sampleEnv idleWidget (QLatin1String "lean")).m_query
          idleWidget.m_searchEngine sampleEnv.calculateOpenHints] ∧
    (SearchWidget.sendRequest sampleEnv idleWidget []).effects
      = idleWidget.effects ++
        [Effect.triggerOpenUrl 1 (sampleEnv.formUrl idleWidget.m_searchEngine)
          sampleEnv.calculateOpenHints] ∧
    (SearchWidget.sendRequest sampleEnv idleBingWidget []).effects = idleBingWidget.effects :=
  ⟨(SearchWidget.sendRequest_spec sampleEnv idleWidget (QLatin1String "lean")).2.2.1 (by decide),
    ((SearchWidget.sendRequest_spec sampleEnv idleWidget []).2.2.2 (by decide)).1 1
      (by decide) (by decide),
    ((SearchWidget.sendRequest_spec sampleEnv idleBingWidget []).2.2.2 (by decide)).2.1
      (Or.inl (by decide))⟩

end Otter
